import Mathlib

/-!
Verification of the Academic Performance Analytics pipeline (src/main.py).

The pipeline operates on a pandas DataFrame of student rows.  We embed the
DataFrame shallowly:

* a `Row` holds the identity/text fields, the subject scores (one `Option ℚ`
  per subject column of the dataset, `none` modelling a missing cell / NaN),
  and the five derived fields as `Option` values (`none` = the derived column
  has not been added to the table);
* a `Dataset` records which of the text columns `name`, `grade_level`,
  `gender` exist in the frame, the list of recognized subject columns that
  exist (`existing_grade_columns` in the source, a sublist of
  `['Math','Science','English','History','Art']` in canonical order), and the
  ordered rows.  Columns outside this set are never read or written by the
  pipeline, so they are not modelled.

Numeric cells are modelled as rationals; Python's `round(x, 1)` (and pandas
`.round(1)`) is round-half-to-even at one decimal, embedded exactly on ℚ.
Comparisons against NaN are false in Python, so `get_letter_grade(NaN)` falls
through every branch to `'F'`; the embedding mirrors this on the `none` case.
-/

/-- The fixed list of recognized subject columns (`grade_columns` in the
source). -/
def gradeColumns : List String := ["Math", "Science", "English", "History", "Art"]

/-- Round a rational to the nearest integer, ties to even — the rounding mode
of Python's builtin `round` and of pandas `.round`. -/
def roundHalfEven (x : ℚ) : ℤ :=
  if x - (⌊x⌋ : ℚ) < 1/2 then ⌊x⌋
  else if 1/2 < x - (⌊x⌋ : ℚ) then ⌊x⌋ + 1
  else if ⌊x⌋ % 2 = 0 then ⌊x⌋ else ⌊x⌋ + 1

/-- `round(x, 1)`: round to one decimal place, ties to even. -/
def round1 (x : ℚ) : ℚ := (roundHalfEven (10 * x) : ℚ) / 10

/-- `get_letter_grade` from `transform_data` (src/main.py lines 159-169). -/
def get_letter_grade (score : ℚ) : String :=
  if score ≥ 90 then "A"
  else if score ≥ 80 then "B"
  else if score ≥ 70 then "C"
  else if score ≥ 60 then "D"
  else "F"

/-- `get_performance_category` from `transform_data` (src/main.py lines
174-182). -/
def get_performance_category (score : ℚ) : String :=
  if score ≥ 85 then "Excellent"
  else if score ≥ 75 then "Good"
  else if score ≥ 65 then "Average"
  else "Needs Improvement"

/-- `get_letter_grade` applied to a possibly-NaN score: every comparison with
NaN is false in Python, so a NaN score falls through to `'F'`. -/
def applyLetterGrade : Option ℚ → String
  | none => "F"
  | some v => get_letter_grade v

/-- `get_performance_category` applied to a possibly-NaN score. -/
def applyPerformance : Option ℚ → String
  | none => "Needs Improvement"
  | some v => get_performance_category v

/-- One student row of the DataFrame.  The five derived fields are `none`
until `transform_data` writes them. -/
structure Row where
  student_id : String
  name : String
  grade_level : String
  gender : String
  scores : List (Option ℚ)
  overall_average : Option ℚ := none
  letter_grade : Option String := none
  performance : Option String := none
  best_subject : Option String := none
  worst_subject : Option String := none
deriving DecidableEq

/-- The DataFrame: presence flags for the three text columns the Cleaner
touches, the recognized subject columns that exist, and the rows.  Each row's
`scores` list is indexed parallel to `subjects`. -/
structure Dataset where
  hasName : Bool
  hasGradeLevel : Bool
  hasGender : Bool
  subjects : List String
  rows : List Row
deriving DecidableEq

/-- A placeholder row used as the default of positional lookups. -/
def defaultRow : Row :=
  { student_id := "", name := "", grade_level := "", gender := "", scores := [] }

/-- The five derived fields of a row, as one tuple. -/
def derivedCols (r : Row) :
    Option ℚ × Option String × Option String × Option String × Option String :=
  (r.overall_average, r.letter_grade, r.performance, r.best_subject, r.worst_subject)

/-- Mean of the non-missing values of a list of cells; `none` models the NaN
that pandas returns for the mean of an all-NaN column. -/
def meanOpt (l : List (Option ℚ)) : Option ℚ :=
  let vs := l.filterMap id
  if vs.length = 0 then none else some (vs.sum / (vs.length : ℚ))

/-- The cells of subject column `j` of a dataset, top to bottom. -/
def column (ds : Dataset) (j : ℕ) : List (Option ℚ) :=
  ds.rows.map (fun r => r.scores.getD j none)

/-- `self.cleaned_data[col].mean()`: the mean of subject column `j` over its
non-missing cells. -/
def colMean (ds : Dataset) (j : ℕ) : Option ℚ := meanOpt (column ds j)

/-- `fillna`: a missing cell receives the fill value (itself possibly NaN,
in which case the cell stays missing); a present cell is kept. -/
def fillCell (m : Option ℚ) : Option ℚ → Option ℚ
  | some v => some v
  | none => m

/-- Step 1 of `clean_data`: `.astype(str).str.strip()` on each of `name`,
`grade_level`, `gender` that exists in the frame. -/
def stripText (ds : Dataset) : Dataset :=
  { ds with rows := ds.rows.map (fun r =>
      { r with
        name := if ds.hasName then r.name.trim else r.name,
        grade_level := if ds.hasGradeLevel then r.grade_level.trim else r.grade_level,
        gender := if ds.hasGender then r.gender.trim else r.gender }) }

/-- Step 2 of `clean_data`: `.str.lower().str.replace('TH', 'th')` on
`grade_level` (the replace is a no-op after lowering, kept for fidelity). -/
def normalizeGradeLevel (s : String) : String := (s.toLower).replace "TH" "th"

/-- Step 2 applied to the frame, guarded on the column existing. -/
def standardizeLevels (ds : Dataset) : Dataset :=
  if ds.hasGradeLevel then
    { ds with rows := ds.rows.map (fun r =>
        { r with grade_level := normalizeGradeLevel r.grade_level }) }
  else ds

/-- One iteration of the imputation loop of `clean_data`: compute the current
mean of column `j`, then fill that column's missing cells with it. -/
def fillColumn (ds : Dataset) (j : ℕ) : Dataset :=
  let m := colMean ds j
  { ds with rows := ds.rows.map (fun r =>
      { r with scores := r.scores.set j (fillCell m (r.scores.getD j none)) }) }

/-- Step 3 of `clean_data`: the `for col in existing_grade_columns` loop,
filling each subject column in order with its own mean. -/
def fillMissing (ds : Dataset) : Dataset :=
  (List.range ds.subjects.length).foldl fillColumn ds

/-- Step 4 of `clean_data`: round every cell of every subject column to one
decimal place. -/
def roundScores (ds : Dataset) : Dataset :=
  { ds with rows := ds.rows.map (fun r =>
      { r with scores := r.scores.map (Option.map round1) }) }

/-- `clean_data` on the table (src/main.py lines 87-138): strip text
columns, standardize grade levels, and — when at least one recognized
subject column exists — impute missing scores and round.  When no subject
column exists the imputation and rounding steps are skipped and the table is
returned as is; no error of any kind is signalled.  (Writing the CSV is a
side effect outside the table and is not modelled.) -/
def cleanTable (raw : Dataset) : Dataset :=
  let ds := standardizeLevels (stripText raw)
  if ds.subjects.isEmpty then ds
  else roundScores (fillMissing ds)

/-- The cells of row `r` under the dataset's subject columns, as pandas sees
them: one entry per subject column, `none` when the cell is missing. -/
def scoresAt (subjects : List String) (scores : List (Option ℚ)) : List (Option ℚ) :=
  (List.range subjects.length).map (fun j => scores.getD j none)

/-- `mean(axis=1)` over the subject columns of one row: mean of the row's
non-missing scores, NaN (here `none`) when all are missing. -/
def rowMean (subjects : List String) (scores : List (Option ℚ)) : Option ℚ :=
  meanOpt (scoresAt subjects scores)

/-- `idxmax(axis=1)`: the first subject column (in column order) whose
non-missing value is maximal; a row with no non-missing score is modelled as
`none`. -/
def idxmaxRow (subjects : List String) (scores : List (Option ℚ)) : Option String :=
  let pairs := (subjects.zip (scoresAt subjects scores)).filterMap
    (fun p => p.2.map (fun v => (p.1, v)))
  match pairs with
  | [] => none
  | p :: ps => some (ps.foldl (fun best q => if best.2 < q.2 then q else best) p).1

/-- `idxmin(axis=1)`: the first subject column whose non-missing value is
minimal. -/
def idxminRow (subjects : List String) (scores : List (Option ℚ)) : Option String :=
  let pairs := (subjects.zip (scoresAt subjects scores)).filterMap
    (fun p => p.2.map (fun v => (p.1, v)))
  match pairs with
  | [] => none
  | p :: ps => some (ps.foldl (fun best q => if q.2 < best.2 then q else best) p).1

/-- The per-row work of `transform_data`: write the five derived columns,
each a function of the row's subject scores only. -/
def transformRow (subjects : List String) (r : Row) : Row :=
  let oa := (rowMean subjects r.scores).map round1
  { r with
    overall_average := oa,
    letter_grade := some (applyLetterGrade oa),
    performance := some (applyPerformance oa),
    best_subject := idxmaxRow subjects r.scores,
    worst_subject := idxminRow subjects r.scores }

/-- `transform_data` on the table (src/main.py lines 140-192): with no
recognized subject column it prints a message and returns `None` before any
derived column is written; otherwise it writes the five derived columns into
the table. -/
def transformTable (ds : Dataset) : Option Dataset :=
  if ds.subjects.isEmpty then none
  else some { ds with rows := ds.rows.map (transformRow ds.subjects) }

/-- Insert a string into a sorted list, keeping it sorted. -/
def insertSorted (s : String) : List String → List String
  | [] => [s]
  | t :: ts => if s ≤ t then s :: t :: ts else t :: insertSorted s ts

/-- Sort a list of strings (pandas `groupby` returns its group keys in
sorted order). -/
def sortKeys (l : List String) : List String := l.foldr insertSorted []

/-- Greatest non-missing value of a column (`Series.max()`, which skips NaN
and is NaN on an all-NaN column). -/
def maxOpt (l : List (Option ℚ)) : Option ℚ := (l.filterMap id).max?

/-- Least non-missing value of a column (`Series.min()`). -/
def minOpt (l : List (Option ℚ)) : Option ℚ := (l.filterMap id).min?

/-- `groupby(key)[val].mean()`: one entry per distinct observed key, in
sorted key order, holding the mean of the non-missing values of that key's
group. -/
def groupbyMean (pairs : List (String × Option ℚ)) : List (String × Option ℚ) :=
  let ks := sortKeys (pairs.map (fun p => p.1)).dedup
  ks.map (fun k => (k, meanOpt ((pairs.filter (fun p => p.1 == k)).map (fun p => p.2))))

/-- The non-missing entries of the `letter_grade` column. -/
def letterVals (ds : Dataset) : List String := ds.rows.filterMap (fun r => r.letter_grade)

/-- `value_counts().to_dict()` on the `letter_grade` column: a count per
distinct observed letter.  (pandas orders the dict by descending count; no
claim observes the order, so the observed-first order is used here.) -/
def gradeDistribution (ds : Dataset) : List (String × ℕ) :=
  (letterVals ds).dedup.map (fun g => (g, (letterVals ds).count g))

/-- The `self.results` dictionary built by `analyze_data`. -/
structure AggregateResult where
  total_students : ℕ
  average_overall_grade : Option ℚ
  highest_grade : Option ℚ
  lowest_grade : Option ℚ
  subject_averages : List (String × Option ℚ)
  grade_distribution : List (String × ℕ)
  performance_by_grade : List (String × Option ℚ)
  gender_performance : List (String × Option ℚ)
deriving DecidableEq

/-- `analyze_data` on the table (src/main.py lines 194-243), for tables that
carry the derived columns (every output of `transform_data` does; reading
`overall_average` / `letter_grade` off a table lacking them would itself be a
`KeyError`, a path no claim exercises).  With no recognized subject column it
returns `None` (`Except.ok none`).  The `grade_level` group-by (line 226) is
unguarded: when that column is absent pandas raises a `KeyError`, modelled as
`Except.error`, and no result is returned.  The `gender` group-by (lines
229-232) is guarded and degrades to an empty dict. -/
def analyzeTable (ds : Dataset) : Except String (Option AggregateResult) :=
  if ds.subjects.isEmpty then .ok none
  else
    let oas := ds.rows.map (fun r => r.overall_average)
    if ds.hasGradeLevel then
      .ok (some {
        total_students := ds.rows.length,
        average_overall_grade := (meanOpt oas).map round1,
        highest_grade := maxOpt oas,
        lowest_grade := minOpt oas,
        subject_averages := (List.range ds.subjects.length).map
          (fun j => (ds.subjects.getD j "", (colMean ds j).map round1)),
        grade_distribution := gradeDistribution ds,
        performance_by_grade := (groupbyMean ((ds.rows.map (fun r => r.grade_level)).zip oas)).map
          (fun p => (p.1, p.2.map round1)),
        gender_performance :=
          if ds.hasGender then
            (groupbyMean ((ds.rows.map (fun r => r.gender)).zip oas)).map
              (fun p => (p.1, p.2.map round1))
          else [] })
    else .error "KeyError: grade_level"

/-- The mutable state of the `AcademicPerformanceAnalyzer` object, restricted
to the two DataFrame attributes the pipeline stages read and write.  The
`cleaned_data` cell models the single table object that `clean_data` creates,
returns, and that `transform_data` then writes its derived columns into in
place: a reference obtained from `clean_data`'s return value aliases this
cell, so reading it after a later stage sees the cell's current content. -/
structure AnalyzerState where
  raw_data : Option Dataset
  cleaned_data : Option Dataset
deriving DecidableEq

/-- The `clean_data` method: with no raw data it prints and returns `None`;
otherwise it copies `raw_data` into the `cleaned_data` attribute (a fresh
table, leaving `raw_data` intact), cleans it, and returns that same table. -/
def clean_data (s : AnalyzerState) : AnalyzerState × Option Dataset :=
  match s.raw_data with
  | none => (s, none)
  | some raw =>
    let c := cleanTable raw
    ({ s with cleaned_data := some c }, some c)

/-- The `transform_data` method: with no cleaned data it returns `None`;
with no recognized subject column it prints `"No grade columns found!"` and
returns `None`, leaving the table untouched; otherwise it writes the five
derived columns into the `cleaned_data` table in place and returns it. -/
def transform_data (s : AnalyzerState) : AnalyzerState × Option Dataset :=
  match s.cleaned_data with
  | none => (s, none)
  | some c =>
    match transformTable c with
    | none => (s, none)
    | some t => ({ s with cleaned_data := some t }, some t)

/-! ### Evaluation helpers for rounding -/

theorem roundHalfEven_intCast (n : ℤ) : roundHalfEven (n : ℚ) = n := by
  norm_num [roundHalfEven]

theorem round1_intCast (n : ℤ) : round1 (n : ℚ) = n := by
  unfold round1
  have h : (10 : ℚ) * n = ((10 * n : ℤ) : ℚ) := by push_cast; ring
  rw [h, roundHalfEven_intCast]
  push_cast
  ring

theorem round1_eval_8555 : round1 (1711/20) = 428/5 := by
  have hf : ⌊(10 * (1711/20 : ℚ))⌋ = 855 := by
    rw [Int.floor_eq_iff]
    norm_num
  unfold round1 roundHalfEven
  rw [hf]
  norm_num

/-! ### Structural lemmas about the pipeline -/

/-- The cell of row `i`, subject column `j` of a dataset. -/
def cellAt (ds : Dataset) (i j : ℕ) : Option ℚ :=
  ((ds.rows.getD i defaultRow).scores).getD j none

/-- Rectangularity: every row has one score cell per subject column, exactly
as in a pandas DataFrame. -/
def Rectangular (ds : Dataset) : Prop :=
  ∀ r ∈ ds.rows, r.scores.length = ds.subjects.length

instance (ds : Dataset) : Decidable (Rectangular ds) := by
  unfold Rectangular
  infer_instance

theorem getD_map_eq {α β : Type _} (f : α → β) (d : α) :
    ∀ (l : List α) (n : ℕ), (l.map f).getD n (f d) = f (l.getD n d) := by
  intro l
  induction l with
  | nil => intro n; rfl
  | cons a t ih =>
    intro n
    cases n with
    | zero => rfl
    | succ m => exact ih m

theorem getD_set_self {α : Type _} (v d : α) :
    ∀ (l : List α) (j : ℕ), j < l.length → (l.set j v).getD j d = v := by
  intro l
  induction l with
  | nil => intro j h; simp at h
  | cons a t ih =>
    intro j h
    cases j with
    | zero => rfl
    | succ m => simpa using ih m (by simpa using h)

theorem getD_set_ne {α : Type _} (v d : α) :
    ∀ (l : List α) (j k : ℕ), j ≠ k → (l.set j v).getD k d = l.getD k d := by
  intro l
  induction l with
  | nil => intro j k _; simp [List.set]
  | cons a t ih =>
    intro j k hjk
    cases j with
    | zero =>
      cases k with
      | zero => exact absurd rfl hjk
      | succ m => rfl
    | succ n =>
      cases k with
      | zero => rfl
      | succ m => simpa using ih n m (fun h => hjk (by rw [h]))

theorem cellAt_eq_column_getD (ds : Dataset) (i j : ℕ) :
    cellAt ds i j = (column ds j).getD i none := by
  unfold cellAt column
  exact (getD_map_eq (fun r : Row => r.scores.getD j none) defaultRow ds.rows i).symm

theorem map_congr_mem {α β : Type _} :
    ∀ (l : List α) (f g : α → β), (∀ a ∈ l, f a = g a) → l.map f = l.map g := by
  intro l
  induction l with
  | nil => intro f g _; rfl
  | cons a t ih =>
    intro f g h
    simp only [List.map_cons]
    rw [h a (by simp), ih f g (fun x hx => h x (by simp [hx]))]

theorem getD_mem {α : Type _} :
    ∀ (l : List α) (i : ℕ) (d : α), i < l.length → l.getD i d ∈ l := by
  intro l
  induction l with
  | nil => intro i d h; simp at h
  | cons a t ih =>
    intro i d h
    cases i with
    | zero => simp
    | succ m =>
      have hm := ih m d (by simpa using h)
      right
      exact hm

theorem stripText_subjects (ds : Dataset) : (stripText ds).subjects = ds.subjects := rfl

theorem stripText_column (ds : Dataset) (j : ℕ) : column (stripText ds) j = column ds j := by
  unfold column stripText
  rw [List.map_map]
  rfl

theorem stripText_length (ds : Dataset) : (stripText ds).rows.length = ds.rows.length := by
  simp [stripText]

theorem stripText_derived (ds : Dataset) :
    (stripText ds).rows.map derivedCols = ds.rows.map derivedCols := by
  unfold stripText
  rw [List.map_map]
  rfl

theorem stripText_rect (ds : Dataset) (h : Rectangular ds) : Rectangular (stripText ds) := by
  intro r hr
  simp only [stripText, List.mem_map] at hr
  obtain ⟨r0, hr0, rfl⟩ := hr
  exact h r0 hr0

theorem standardizeLevels_subjects (ds : Dataset) :
    (standardizeLevels ds).subjects = ds.subjects := by
  unfold standardizeLevels
  split <;> rfl

theorem standardizeLevels_column (ds : Dataset) (j : ℕ) :
    column (standardizeLevels ds) j = column ds j := by
  unfold standardizeLevels
  split
  · unfold column
    rw [List.map_map]
    rfl
  · rfl

theorem standardizeLevels_length (ds : Dataset) :
    (standardizeLevels ds).rows.length = ds.rows.length := by
  unfold standardizeLevels
  split <;> simp

theorem standardizeLevels_derived (ds : Dataset) :
    (standardizeLevels ds).rows.map derivedCols = ds.rows.map derivedCols := by
  unfold standardizeLevels
  split
  · rw [List.map_map]
    rfl
  · rfl

theorem standardizeLevels_rect (ds : Dataset) (h : Rectangular ds) :
    Rectangular (standardizeLevels ds) := by
  unfold Rectangular standardizeLevels
  split
  · intro r hr
    simp only [List.mem_map] at hr
    obtain ⟨r0, hr0, rfl⟩ := hr
    exact h r0 hr0
  · exact h

theorem fillColumn_subjects (ds : Dataset) (j : ℕ) :
    (fillColumn ds j).subjects = ds.subjects := rfl

theorem fillColumn_length (ds : Dataset) (j : ℕ) :
    (fillColumn ds j).rows.length = ds.rows.length := by
  simp [fillColumn]

theorem fillColumn_derived (ds : Dataset) (j : ℕ) :
    (fillColumn ds j).rows.map derivedCols = ds.rows.map derivedCols := by
  unfold fillColumn
  rw [List.map_map]
  rfl

theorem fillColumn_rect (ds : Dataset) (j : ℕ) (h : Rectangular ds) :
    Rectangular (fillColumn ds j) := by
  intro r hr
  simp only [fillColumn, List.mem_map] at hr
  obtain ⟨r0, hr0, rfl⟩ := hr
  simpa using h r0 hr0

theorem fillColumn_column_ne (ds : Dataset) (j k : ℕ) (hjk : j ≠ k) :
    column (fillColumn ds j) k = column ds k := by
  unfold column fillColumn
  rw [List.map_map]
  refine map_congr_mem _ _ _ (fun r _ => ?_)
  exact getD_set_ne _ none r.scores j k hjk

theorem cellAt_fillColumn_self (ds : Dataset) (i j : ℕ) (hrect : Rectangular ds)
    (hi : i < ds.rows.length) (hj : j < ds.subjects.length) :
    cellAt (fillColumn ds j) i j = fillCell (colMean ds j) (cellAt ds i j) := by
  unfold cellAt fillColumn
  have h1 := getD_map_eq
    (fun r : Row =>
      { r with scores := r.scores.set j (fillCell (colMean ds j) (r.scores.getD j none)) })
    defaultRow ds.rows i
  rw [show (({ defaultRow with
        scores := (defaultRow.scores).set j
          (fillCell (colMean ds j) ((defaultRow.scores).getD j none)) }) : Row)
      = defaultRow from rfl] at h1
  rw [h1]
  have hlen : (ds.rows.getD i defaultRow).scores.length = ds.subjects.length :=
    hrect _ (getD_mem ds.rows i defaultRow hi)
  exact getD_set_self _ none _ j (by rw [hlen]; exact hj)

theorem foldl_fillColumn_subjects :
    ∀ (l : List ℕ) (ds : Dataset), (l.foldl fillColumn ds).subjects = ds.subjects := by
  intro l
  induction l with
  | nil => intro ds; rfl
  | cons a t ih => intro ds; simpa using ih (fillColumn ds a)

theorem foldl_fillColumn_length :
    ∀ (l : List ℕ) (ds : Dataset),
      (l.foldl fillColumn ds).rows.length = ds.rows.length := by
  intro l
  induction l with
  | nil => intro ds; rfl
  | cons a t ih =>
    intro ds
    simpa [fillColumn_length] using ih (fillColumn ds a)

theorem foldl_fillColumn_rect :
    ∀ (l : List ℕ) (ds : Dataset), Rectangular ds → Rectangular (l.foldl fillColumn ds) := by
  intro l
  induction l with
  | nil => intro ds h; exact h
  | cons a t ih => intro ds h; exact ih (fillColumn ds a) (fillColumn_rect ds a h)

theorem foldl_fillColumn_derived :
    ∀ (l : List ℕ) (ds : Dataset),
      (l.foldl fillColumn ds).rows.map derivedCols = ds.rows.map derivedCols := by
  intro l
  induction l with
  | nil => intro ds; rfl
  | cons a t ih =>
    intro ds
    calc ((a :: t).foldl fillColumn ds).rows.map derivedCols
        = ((t.foldl fillColumn (fillColumn ds a)).rows).map derivedCols := rfl
      _ = (fillColumn ds a).rows.map derivedCols := ih (fillColumn ds a)
      _ = ds.rows.map derivedCols := fillColumn_derived ds a

theorem foldl_fillColumn_column_ne :
    ∀ (l : List ℕ) (ds : Dataset) (j : ℕ), (∀ k ∈ l, k ≠ j) →
      column (l.foldl fillColumn ds) j = column ds j := by
  intro l
  induction l with
  | nil => intro ds j _; rfl
  | cons a t ih =>
    intro ds j h
    calc column ((a :: t).foldl fillColumn ds) j
        = column (t.foldl fillColumn (fillColumn ds a)) j := rfl
      _ = column (fillColumn ds a) j := ih (fillColumn ds a) j (fun k hk => h k (by simp [hk]))
      _ = column ds j := fillColumn_column_ne ds a j (h a (by simp))

theorem cellAt_fillMissing (ds : Dataset) (i j : ℕ) (hrect : Rectangular ds)
    (hi : i < ds.rows.length) (hj : j < ds.subjects.length) :
    cellAt (fillMissing ds) i j = fillCell (colMean ds j) (cellAt ds i j) := by
  obtain ⟨m, hm⟩ : ∃ m, ds.subjects.length = (j + 1) + m :=
    ⟨ds.subjects.length - (j + 1), by omega⟩
  unfold fillMissing
  rw [hm, List.range_add, List.foldl_append]
  set s1 := (List.range (j + 1)).foldl fillColumn ds with hs1
  have htail : column (((List.range m).map (fun x => (j + 1) + x)).foldl fillColumn s1) j
      = column s1 j := by
    refine foldl_fillColumn_column_ne _ s1 j (fun k hk => ?_)
    simp only [List.mem_map, List.mem_range] at hk
    obtain ⟨x, _, rfl⟩ := hk
    omega
  rw [cellAt_eq_column_getD, htail, ← cellAt_eq_column_getD]
  have hs0 : s1 = fillColumn ((List.range j).foldl fillColumn ds) j := by
    rw [hs1, List.range_succ, List.foldl_append]
    rfl
  set s0 := (List.range j).foldl fillColumn ds with hs0def
  have hcol0 : column s0 j = column ds j := by
    refine foldl_fillColumn_column_ne _ ds j (fun k hk => ?_)
    simp only [List.mem_range] at hk
    omega
  have hrect0 : Rectangular s0 := foldl_fillColumn_rect _ ds hrect
  have hi0 : i < s0.rows.length := by rw [foldl_fillColumn_length]; exact hi
  have hj0 : j < s0.subjects.length := by rw [foldl_fillColumn_subjects]; exact hj
  rw [hs0, cellAt_fillColumn_self s0 i j hrect0 hi0 hj0]
  have hmean : colMean s0 j = colMean ds j := by
    unfold colMean
    rw [hcol0]
  have hcell : cellAt s0 i j = cellAt ds i j := by
    rw [cellAt_eq_column_getD, hcol0, ← cellAt_eq_column_getD]
  rw [hmean, hcell]

theorem cellAt_roundScores (ds : Dataset) (i j : ℕ) :
    cellAt (roundScores ds) i j = (cellAt ds i j).map round1 := by
  unfold cellAt roundScores
  have h1 := getD_map_eq
    (fun r : Row => { r with scores := r.scores.map (Option.map round1) })
    defaultRow ds.rows i
  rw [show (({ defaultRow with scores := (defaultRow.scores).map (Option.map round1) }) : Row)
      = defaultRow from rfl] at h1
  rw [h1]
  exact getD_map_eq (Option.map round1) none (ds.rows.getD i defaultRow).scores j

theorem roundScores_subjects (ds : Dataset) : (roundScores ds).subjects = ds.subjects := rfl

theorem roundScores_length (ds : Dataset) :
    (roundScores ds).rows.length = ds.rows.length := by
  simp [roundScores]

theorem roundScores_derived (ds : Dataset) :
    (roundScores ds).rows.map derivedCols = ds.rows.map derivedCols := by
  unfold roundScores
  rw [List.map_map]
  rfl

theorem fillMissing_subjects (ds : Dataset) : (fillMissing ds).subjects = ds.subjects :=
  foldl_fillColumn_subjects _ ds

theorem fillMissing_length (ds : Dataset) : (fillMissing ds).rows.length = ds.rows.length :=
  foldl_fillColumn_length _ ds

theorem fillMissing_derived (ds : Dataset) :
    (fillMissing ds).rows.map derivedCols = ds.rows.map derivedCols :=
  foldl_fillColumn_derived _ ds

theorem textClean_subjects (ds : Dataset) :
    (standardizeLevels (stripText ds)).subjects = ds.subjects := by
  rw [standardizeLevels_subjects, stripText_subjects]

theorem textClean_column (ds : Dataset) (j : ℕ) :
    column (standardizeLevels (stripText ds)) j = column ds j := by
  rw [standardizeLevels_column, stripText_column]

theorem textClean_length (ds : Dataset) :
    (standardizeLevels (stripText ds)).rows.length = ds.rows.length := by
  rw [standardizeLevels_length, stripText_length]

theorem textClean_rect (ds : Dataset) (h : Rectangular ds) :
    Rectangular (standardizeLevels (stripText ds)) :=
  standardizeLevels_rect _ (stripText_rect _ h)

theorem textClean_colMean (ds : Dataset) (j : ℕ) :
    colMean (standardizeLevels (stripText ds)) j = colMean ds j := by
  unfold colMean
  rw [textClean_column]

theorem textClean_cellAt (ds : Dataset) (i j : ℕ) :
    cellAt (standardizeLevels (stripText ds)) i j = cellAt ds i j := by
  rw [cellAt_eq_column_getD, textClean_column, ← cellAt_eq_column_getD]

theorem cleanTable_eq (raw : Dataset) :
    cleanTable raw =
      if (standardizeLevels (stripText raw)).subjects.isEmpty then
        standardizeLevels (stripText raw)
      else roundScores (fillMissing (standardizeLevels (stripText raw))) := rfl

theorem cleanTable_subjects (ds : Dataset) : (cleanTable ds).subjects = ds.subjects := by
  rw [cleanTable_eq]
  split
  · exact textClean_subjects ds
  · rw [roundScores_subjects, fillMissing_subjects, textClean_subjects]

theorem cleanTable_length (ds : Dataset) : (cleanTable ds).rows.length = ds.rows.length := by
  rw [cleanTable_eq]
  split
  · exact textClean_length ds
  · rw [roundScores_length, fillMissing_length, textClean_length]

theorem cleanTable_derived (ds : Dataset) :
    (cleanTable ds).rows.map derivedCols = ds.rows.map derivedCols := by
  rw [cleanTable_eq]
  split
  · rw [standardizeLevels_derived, stripText_derived]
  · rw [roundScores_derived, fillMissing_derived, standardizeLevels_derived, stripText_derived]

/-- The master description of cleaning at the cell level: every cell of a
subject column ends as the `fillna` of the column's original mean, rounded to
one decimal. -/
theorem cellAt_cleanTable (raw : Dataset) (i j : ℕ) (hrect : Rectangular raw)
    (hi : i < raw.rows.length) (hj : j < raw.subjects.length) :
    cellAt (cleanTable raw) i j = (fillCell (colMean raw j) (cellAt raw i j)).map round1 := by
  have hne : (standardizeLevels (stripText raw)).subjects.isEmpty = false := by
    rw [textClean_subjects]
    cases hsub : raw.subjects with
    | nil => rw [hsub] at hj; simp at hj
    | cons a t => rfl
  rw [cleanTable_eq, hne]
  simp only [Bool.false_eq_true, if_false]
  rw [cellAt_roundScores]
  have hrect2 : Rectangular (standardizeLevels (stripText raw)) := textClean_rect raw hrect
  have hi2 : i < (standardizeLevels (stripText raw)).rows.length := by
    rw [textClean_length]; exact hi
  have hj2 : j < (standardizeLevels (stripText raw)).subjects.length := by
    rw [textClean_subjects]; exact hj
  rw [cellAt_fillMissing _ i j hrect2 hi2 hj2, textClean_colMean, textClean_cellAt]

/-- A subject column with at least one non-missing cell has a well-defined
mean. -/
theorem colMean_isSome (ds : Dataset) (j : ℕ)
    (hx : ∃ i2, i2 < ds.rows.length ∧ cellAt ds i2 j ≠ none) :
    ∃ q, colMean ds j = some q := by
  obtain ⟨i, hi, hne⟩ := hx
  rw [cellAt_eq_column_getD] at hne
  have hlen : (column ds j).length = ds.rows.length := by simp [column]
  have hmem : (column ds j).getD i none ∈ column ds j :=
    getD_mem _ i none (by rw [hlen]; exact hi)
  obtain ⟨v, hv⟩ : ∃ v, (column ds j).getD i none = some v := by
    cases h : (column ds j).getD i none with
    | none => exact absurd h hne
    | some v => exact ⟨v, rfl⟩
  have hvmem : v ∈ (column ds j).filterMap id :=
    List.mem_filterMap.mpr ⟨some v, hv ▸ hmem, rfl⟩
  simp only [colMean, meanOpt]
  have hpos : ¬ ((column ds j).filterMap id).length = 0 := by
    intro h0
    rw [List.length_eq_zero] at h0
    rw [h0] at hvmem
    simp at hvmem
  rw [if_neg hpos]
  exact ⟨_, rfl⟩

/-! ### Concrete datasets used by witnesses and counterexamples -/

/-- Three students with Math scores `[80, missing, 100]` (the §8 scenario of
the spec).  The text columns are absent so only the numeric pipeline runs. -/
def ex5 : Dataset :=
  { hasName := false, hasGradeLevel := false, hasGender := false,
    subjects := ["Math"],
    rows :=
      [ { student_id := "STU001", name := "", grade_level := "", gender := "",
          scores := [some 80] },
        { student_id := "STU002", name := "", grade_level := "", gender := "",
          scores := [none] },
        { student_id := "STU003", name := "", grade_level := "", gender := "",
          scores := [some 100] } ] }

/-- One student whose only Math score is missing: a subject column whose
cells are all missing. -/
def exAllMissing : Dataset :=
  { hasName := false, hasGradeLevel := false, hasGender := false,
    subjects := ["Math"],
    rows :=
      [ { student_id := "STU001", name := "", grade_level := "", gender := "",
          scores := [none] } ] }

/-- One student with the Math score 85.55, which is not at one decimal. -/
def exPresent : Dataset :=
  { hasName := false, hasGradeLevel := false, hasGender := false,
    subjects := ["Math"],
    rows :=
      [ { student_id := "STU001", name := "", grade_level := "", gender := "",
          scores := [some (1711/20)] } ] }

/-! ### The claims -/

/-- C5: for every subject column present in the raw dataset, `clean` computes
the column's mean over all non-missing values before any cell of the column
is filled — `colMean raw j` reads the original distribution of the raw data,
not the partially filled table — and every missing cell of the column ends up
holding that mean rounded to one decimal. -/
theorem clean_fills_missing_with_premean (raw : Dataset) (i j : ℕ)
    (hrect : Rectangular raw) (hi : i < raw.rows.length) (hj : j < raw.subjects.length)
    (hmiss : cellAt raw i j = none) :
    cellAt (cleanTable raw) i j = (colMean raw j).map round1 := by
  rw [cellAt_cleanTable raw i j hrect hi hj, hmiss]
  rfl

/-- Witness for C5, on the spec's §8 scenario: Math scores `[80, missing,
100]`; the missing cell of student 2 is filled with the pre-imputation column
mean rounded to one decimal, which is 90. -/
theorem clean_fills_missing_with_premean_witness :
    cellAt ex5 1 0 = none
    ∧ cellAt (cleanTable ex5) 1 0 = (colMean ex5 0).map round1
    ∧ (colMean ex5 0).map round1 = some 90 := by
  refine ⟨rfl, clean_fills_missing_with_premean ex5 1 0 (by decide) (by decide) (by decide) rfl, ?_⟩
  have hcm : colMean ex5 0 = some 90 := by
    have h1 : colMean ex5 0
        = some (([80, 100] : List ℚ).sum / ((([80, 100] : List ℚ).length : ℕ) : ℚ)) := rfl
    rw [h1]
    norm_num
  rw [hcm]
  have h90 : round1 (90 : ℚ) = 90 := by
    have := round1_intCast 90
    norm_num at this
    exact this
  show some (round1 90) = some 90
  rw [h90]

/-- Counterexample to C3 as stated: a raw dataset whose Math column exists
but consists only of missing cells.  The column mean is NaN, `fillna(NaN)`
fills nothing, and the missing cell survives cleaning. -/
theorem clean_leaves_all_missing_column :
    0 < exAllMissing.subjects.length
    ∧ cellAt exAllMissing 0 0 = none
    ∧ cellAt (cleanTable exAllMissing) 0 0 = none := by
  refine ⟨by decide, rfl, ?_⟩
  rw [cellAt_cleanTable exAllMissing 0 0 (by decide) (by decide) (by decide)]
  rfl

/-- C3 (amended): after `clean`, zero missing values remain in any subject
column that existed in the raw input and had at least one non-missing cell;
a column whose cells are all missing keeps its missing cells. -/
theorem clean_imputes_nonempty_columns (raw : Dataset) (i j : ℕ)
    (hrect : Rectangular raw) (hi : i < raw.rows.length) (hj : j < raw.subjects.length)
    (hx : ∃ i2, i2 < raw.rows.length ∧ cellAt raw i2 j ≠ none) :
    cellAt (cleanTable raw) i j ≠ none := by
  rw [cellAt_cleanTable raw i j hrect hi hj]
  obtain ⟨q, hq⟩ := colMean_isSome raw j hx
  cases hcell : cellAt raw i j with
  | none => rw [hq]; simp [fillCell]
  | some v => simp [fillCell]

/-- Witness for the amended C3: in the `[80, missing, 100]` Math column every
cell is non-missing after cleaning, including the formerly missing one. -/
theorem clean_imputes_nonempty_columns_witness :
    cellAt (cleanTable ex5) 1 0 ≠ none :=
  clean_imputes_nonempty_columns ex5 1 0 (by decide) (by decide) (by decide)
    ⟨0, by decide, by decide⟩

/-- C10: after `clean` runs, every value in every subject column present in
the dataset is at one decimal place (an integer number of tenths) — and this
rounding also alters originally present scores, not only imputed cells: the
present raw score 85.55 is changed to 85.6 by cleaning. -/
theorem clean_rounds_all_cells :
    (∀ (raw : Dataset) (i j : ℕ) (v : ℚ), Rectangular raw → i < raw.rows.length →
      j < raw.subjects.length → cellAt (cleanTable raw) i j = some v →
        ∃ k : ℤ, v = (k : ℚ) / 10)
    ∧ cellAt exPresent 0 0 = some (1711/20)
    ∧ cellAt (cleanTable exPresent) 0 0 = some (428/5)
    ∧ (428/5 : ℚ) ≠ 1711/20 := by
  refine ⟨?_, rfl, ?_, by norm_num⟩
  · intro raw i j v hrect hi hj h
    rw [cellAt_cleanTable raw i j hrect hi hj] at h
    obtain ⟨w, _, hw2⟩ := Option.map_eq_some'.mp h
    exact ⟨roundHalfEven (10 * w), hw2 ▸ rfl⟩
  · rw [cellAt_cleanTable exPresent 0 0 (by decide) (by decide) (by decide)]
    show some (round1 (1711/20)) = some (428/5)
    rw [round1_eval_8555]

/-- Witness for C10: the cleaned value 85.6 of the sample cell is an integer
number of tenths, via the theorem applied at that cell. -/
theorem clean_rounds_all_cells_witness :
    ∃ k : ℤ, (428/5 : ℚ) = (k : ℚ) / 10 :=
  clean_rounds_all_cells.1 exPresent 0 0 (428/5) (by decide) (by decide) (by decide)
    clean_rounds_all_cells.2.2.1

/-! ### Lemmas about the Transformer and the method-level state machine -/

theorem transformRow_scores (s : List String) (r : Row) :
    (transformRow s r).scores = r.scores := rfl

theorem transformRow_idem (s : List String) (r : Row) :
    transformRow s (transformRow s r) = transformRow s r := rfl

theorem transformTable_of_ne (ds : Dataset) (h : ds.subjects ≠ []) :
    transformTable ds = some { ds with rows := ds.rows.map (transformRow ds.subjects) } := by
  unfold transformTable
  rw [if_neg]
  simp only [List.isEmpty_iff]
  exact h

theorem transformTable_of_empty (ds : Dataset) (h : ds.subjects = []) :
    transformTable ds = none := by
  unfold transformTable
  rw [if_pos]
  simp only [List.isEmpty_iff]
  exact h

/-- C9: `transform` is idempotent on its output — applying `transform_data` a
second time to an already-transformed table succeeds and leaves the five
derived columns (`overall_average`, `letter_grade`, `performance`,
`best_subject`, `worst_subject`) of every row unchanged. -/
theorem transform_idempotent (ds t : Dataset) (h : transformTable ds = some t) :
    ∃ t2, transformTable t = some t2 ∧ t2.rows.map derivedCols = t.rows.map derivedCols := by
  by_cases hs : ds.subjects = []
  · rw [transformTable_of_empty ds hs] at h
    cases h
  · rw [transformTable_of_ne ds hs] at h
    cases h
    have hs2 : ({ ds with rows := ds.rows.map (transformRow ds.subjects) } : Dataset).subjects
        ≠ [] := hs
    rw [transformTable_of_ne _ hs2]
    refine ⟨_, rfl, ?_⟩
    show ((ds.rows.map (transformRow ds.subjects)).map (transformRow ds.subjects)).map derivedCols
      = (ds.rows.map (transformRow ds.subjects)).map derivedCols
    simp only [List.map_map]
    refine map_congr_mem _ _ _ (fun r _ => ?_)
    show derivedCols (transformRow ds.subjects (transformRow ds.subjects r))
      = derivedCols (transformRow ds.subjects r)
    rw [transformRow_idem]

/-- Witness for C9, at the one-student dataset: re-transforming the
transformed table reproduces the same derived columns. -/
theorem transform_idempotent_witness :
    ∃ t2, transformTable { exPresent with rows := exPresent.rows.map (transformRow exPresent.subjects) } = some t2
      ∧ t2.rows.map derivedCols
        = (({ exPresent with rows := exPresent.rows.map (transformRow exPresent.subjects) } : Dataset)).rows.map derivedCols :=
  transform_idempotent exPresent _ (transformTable_of_ne exPresent (by decide))

theorem gradeDistribution_sum_eq_letterVals (ds : Dataset) :
    ((gradeDistribution ds).map (fun p => p.2)).sum = (letterVals ds).length := by
  unfold gradeDistribution
  rw [List.map_map]
  exact List.sum_map_count_dedup_eq_length (letterVals ds)

/-- Every row of a transformed table has a letter grade, so the
`letter_grade` column has one (non-NaN) entry per record. -/
theorem letterVals_transform (ds : Dataset) :
    (letterVals { ds with rows := ds.rows.map (transformRow ds.subjects) }).length
      = ds.rows.length := by
  unfold letterVals
  show ((ds.rows.map (transformRow ds.subjects)).filterMap (fun r => r.letter_grade)).length
    = ds.rows.length
  rw [List.filterMap_map]
  have : ds.rows.filterMap ((fun r : Row => r.letter_grade) ∘ transformRow ds.subjects)
      = ds.rows.map (fun r =>
          applyLetterGrade ((rowMean ds.subjects r.scores).map round1)) := by
    rw [← List.filterMap_eq_map]
    rfl
  rw [this, List.length_map]

/-- C8: the counts of the letter-grade distribution produced by aggregation
sum to the total record count of the transformed dataset. -/
theorem grade_distribution_counts_sum (ds t : Dataset) (h : transformTable ds = some t) :
    ((gradeDistribution t).map (fun p => p.2)).sum = t.rows.length := by
  by_cases hs : ds.subjects = []
  · rw [transformTable_of_empty ds hs] at h
    cases h
  · rw [transformTable_of_ne ds hs] at h
    cases h
    rw [gradeDistribution_sum_eq_letterVals, letterVals_transform]
    simp

/-- Witness for C8 at the one-student dataset. -/
theorem grade_distribution_counts_sum_witness :
    ((gradeDistribution { exPresent with rows := exPresent.rows.map (transformRow exPresent.subjects) }).map (fun p => p.2)).sum
      = (({ exPresent with rows := exPresent.rows.map (transformRow exPresent.subjects) } : Dataset)).rows.length :=
  grade_distribution_counts_sum exPresent _ (transformTable_of_ne exPresent (by decide))

theorem getD_indep {α : Type _} :
    ∀ (l : List α) (i : ℕ) (d d' : α), i < l.length → l.getD i d = l.getD i d' := by
  intro l
  induction l with
  | nil => intro i d d' h; simp at h
  | cons a t ih =>
    intro i d d' h
    cases i with
    | zero => rfl
    | succ m => exact ih m d d' (by simpa using h)

theorem clean_data_some (s : AnalyzerState) (raw : Dataset) (h : s.raw_data = some raw) :
    clean_data s = ({ s with cleaned_data := some (cleanTable raw) }, some (cleanTable raw)) := by
  unfold clean_data
  rw [h]

theorem transform_data_of_cleaned (s : AnalyzerState) (c : Dataset)
    (h : s.cleaned_data = some c) :
    transform_data s =
      (match transformTable c with
        | none => (s, none)
        | some t => ({ s with cleaned_data := some t }, some t)) := by
  unfold transform_data
  rw [h]

/-- A dataset with none of the recognized subject columns. -/
def exNoSub : Dataset :=
  { hasName := false, hasGradeLevel := false, hasGender := false,
    subjects := [],
    rows :=
      [ { student_id := "STU001", name := "", grade_level := "", gender := "",
          scores := [] } ] }

/-- Counterexample to C1 as stated: on a dataset with none of the recognized
subject columns, `clean_data` completes normally and returns the cleaned
dataset — it signals no error at all (the source has no error path for this
case), so the Cleaner does not report a `MissingSchemaError`. -/
theorem cleaner_no_error_on_schemaless :
    exNoSub.subjects = []
    ∧ (clean_data { raw_data := some exNoSub, cleaned_data := none }).2 = some exNoSub :=
  ⟨rfl, rfl⟩

/-- C1 (amended): on a dataset with none of the recognized subject columns,
the Cleaner reports no error — it returns the dataset with imputation
skipped and the subject list still empty; the Transformer then fails by
returning no table (`None`), leaving the analyzer state untouched, and no
derived columns are added anywhere in the pipeline. -/
theorem schemaless_cleans_then_transform_fails (s : AnalyzerState) (raw : Dataset)
    (hraw : s.raw_data = some raw) (hsub : raw.subjects = []) :
    ∃ c, (clean_data s).2 = some c ∧ c.subjects = []
      ∧ (transform_data (clean_data s).1).2 = none
      ∧ (transform_data (clean_data s).1).1 = (clean_data s).1
      ∧ c.rows.map derivedCols = raw.rows.map derivedCols := by
  rw [clean_data_some s raw hraw]
  refine ⟨cleanTable raw, rfl, ?_, ?_, ?_, cleanTable_derived raw⟩
  · rw [cleanTable_subjects, hsub]
  · rw [transform_data_of_cleaned _ (cleanTable raw) rfl,
      transformTable_of_empty _ (by rw [cleanTable_subjects, hsub])]
  · rw [transform_data_of_cleaned _ (cleanTable raw) rfl,
      transformTable_of_empty _ (by rw [cleanTable_subjects, hsub])]

/-- Witness for the amended C1, at a concrete schema-less dataset. -/
theorem schemaless_cleans_then_transform_fails_witness :
    ∃ c, (clean_data { raw_data := some exNoSub, cleaned_data := none }).2 = some c
      ∧ c.subjects = []
      ∧ (transform_data (clean_data { raw_data := some exNoSub, cleaned_data := none }).1).2 = none
      ∧ (transform_data (clean_data { raw_data := some exNoSub, cleaned_data := none }).1).1
        = (clean_data { raw_data := some exNoSub, cleaned_data := none }).1
      ∧ c.rows.map derivedCols = exNoSub.rows.map derivedCols :=
  schemaless_cleans_then_transform_fails _ exNoSub rfl rfl

/-- Counterexample to C4 as stated: `transform_data` writes the derived
columns into `self.cleaned_data` in place — the very table `clean_data`
returned.  Observing that table (the analyzer's `cleaned_data` cell) after
transform shows it changed: it is no longer the cleaned table. -/
theorem transform_changes_cleaned_table :
    (transform_data (clean_data { raw_data := some exPresent, cleaned_data := none }).1).1.cleaned_data
      ≠ (clean_data { raw_data := some exPresent, cleaned_data := none }).1.cleaned_data := by
  intro h
  have h2 := congrArg
    (fun o : Option Dataset =>
      (((o.getD exPresent).rows.getD 0 defaultRow).letter_grade).isNone) h
  exact absurd h2 (by decide)

/-- C4 (amended): `clean_data` does construct a fresh table — the raw table
is left intact — but `transform_data` does not: it writes the five derived
columns into the cleaned table in place, so after transform runs the
analyzer's `cleaned_data` (the table `clean_data` returned) holds the
transformed table, which differs from the cleaned one. -/
theorem transform_mutates_cleaned (s : AnalyzerState) (raw : Dataset)
    (hraw : s.raw_data = some raw) (hsub : raw.subjects ≠ [])
    (hrow : 0 < raw.rows.length)
    (hfresh : (raw.rows.getD 0 defaultRow).letter_grade = none) :
    (clean_data s).1.raw_data = s.raw_data
    ∧ ∃ c t, (clean_data s).2 = some c
        ∧ (transform_data (clean_data s).1).1.cleaned_data = some t
        ∧ t ≠ c := by
  rw [clean_data_some s raw hraw]
  have hcsub : (cleanTable raw).subjects ≠ [] := by rw [cleanTable_subjects]; exact hsub
  refine ⟨rfl, cleanTable raw,
    { cleanTable raw with
        rows := (cleanTable raw).rows.map (transformRow (cleanTable raw).subjects) },
    rfl, ?_, ?_⟩
  · rw [transform_data_of_cleaned _ (cleanTable raw) rfl, transformTable_of_ne _ hcsub]
  · intro heq
    have hlen : 0 < (cleanTable raw).rows.length := by rw [cleanTable_length]; exact hrow
    have h1 : derivedCols ((cleanTable raw).rows.getD 0 defaultRow)
        = derivedCols (raw.rows.getD 0 defaultRow) := by
      have e1 := getD_map_eq derivedCols defaultRow (cleanTable raw).rows 0
      have e2 := getD_map_eq derivedCols defaultRow raw.rows 0
      rw [← e1, ← e2, cleanTable_derived raw]
    have hcfresh : ((cleanTable raw).rows.getD 0 defaultRow).letter_grade = none := by
      have h2 := congrArg (fun x => x.2.1) h1
      exact h2.trans hfresh
    have hrows : (cleanTable raw).rows.map (transformRow (cleanTable raw).subjects)
        = (cleanTable raw).rows := congrArg Dataset.rows heq
    have e3 : ((cleanTable raw).rows.map (transformRow (cleanTable raw).subjects)).getD 0 defaultRow
        = transformRow (cleanTable raw).subjects ((cleanTable raw).rows.getD 0 defaultRow) := by
      rw [getD_indep _ 0 defaultRow (transformRow (cleanTable raw).subjects defaultRow)
          (by rw [List.length_map]; exact hlen)]
      exact getD_map_eq _ _ _ _
    have e5 : (transformRow (cleanTable raw).subjects
        ((cleanTable raw).rows.getD 0 defaultRow)).letter_grade
        = ((cleanTable raw).rows.getD 0 defaultRow).letter_grade := by
      rw [← e3, hrows]
    rw [hcfresh] at e5
    exact absurd e5 (by simp [transformRow])

/-- Zeta-expanded defining equation of `analyzeTable`. -/
theorem analyzeTable_eq (ds : Dataset) :
    analyzeTable ds =
      if ds.subjects.isEmpty then .ok none
      else if ds.hasGradeLevel then
        .ok (some {
          total_students := ds.rows.length,
          average_overall_grade :=
            (meanOpt (ds.rows.map (fun r => r.overall_average))).map round1,
          highest_grade := maxOpt (ds.rows.map (fun r => r.overall_average)),
          lowest_grade := minOpt (ds.rows.map (fun r => r.overall_average)),
          subject_averages := (List.range ds.subjects.length).map
            (fun j => (ds.subjects.getD j "", (colMean ds j).map round1)),
          grade_distribution := gradeDistribution ds,
          performance_by_grade := (groupbyMean ((ds.rows.map (fun r => r.grade_level)).zip
            (ds.rows.map (fun r => r.overall_average)))).map
              (fun p => (p.1, p.2.map round1)),
          gender_performance :=
            if ds.hasGender then
              (groupbyMean ((ds.rows.map (fun r => r.gender)).zip
                (ds.rows.map (fun r => r.overall_average)))).map
                  (fun p => (p.1, p.2.map round1))
            else [] })
      else .error "KeyError: grade_level" := rfl

/-- A hand-written transformed one-student table that has a `grade_level`
column but no `gender` column. -/
def exT2 : Dataset :=
  { hasName := false, hasGradeLevel := true, hasGender := false,
    subjects := ["Math"],
    rows :=
      [ { student_id := "STU001", name := "", grade_level := "9th", gender := "",
          scores := [some 80], overall_average := some 80,
          letter_grade := some "B", performance := some "Good",
          best_subject := some "Math", worst_subject := some "Math" } ] }

/-- C2, evaluated at the failing input: a transformed dataset with no
`grade_level` column.  `analyze_data` group-bys `grade_level` without
checking that the column exists (src/main.py line 226) — unlike the `gender`
group-by three lines below it, and unlike the same `grade_level` group-by in
src/dashboard.py line 297, both of which are guarded — so aggregation raises
a `KeyError` instead of producing the empty map the claim describes. -/
theorem groupby_missing_grade_level_raises :
    (transformTable exPresent).map analyzeTable
      = some (Except.error "KeyError: grade_level") := rfl

/-- The aggregation behavior on absent grouping columns, as implemented: an
absent `gender` column yields an empty `gender_performance` map (that
group-by is guarded), but an absent `grade_level` column makes aggregation
fail with a `KeyError` — the `grade_level` group-by is unguarded — so no
result at all is produced. -/
theorem groupby_absent_column_behavior :
    (∀ ds : Dataset, ds.subjects ≠ [] → ds.hasGradeLevel = true → ds.hasGender = false →
      ∃ r, analyzeTable ds = .ok (some r) ∧ r.gender_performance = [])
    ∧ (∀ ds : Dataset, ds.subjects ≠ [] → ds.hasGradeLevel = false →
        analyzeTable ds = .error "KeyError: grade_level") := by
  constructor
  · intro ds h1 h2 h3
    rw [analyzeTable_eq, if_neg (by simpa [List.isEmpty_iff] using h1), if_pos h2]
    refine ⟨_, rfl, ?_⟩
    rw [h3]
    rfl
  · intro ds h1 h2
    rw [analyzeTable_eq, if_neg (by simpa [List.isEmpty_iff] using h1),
      if_neg (by simp [h2])]

/-- Concrete instances of `groupby_absent_column_behavior`: the no-gender
table aggregates to an empty `gender_performance`; the no-grade-level table
makes aggregation raise. -/
theorem groupby_absent_column_behavior_witness :
    (∃ r, analyzeTable exT2 = .ok (some r) ∧ r.gender_performance = [])
    ∧ analyzeTable exPresent = .error "KeyError: grade_level" :=
  ⟨groupby_absent_column_behavior.1 exT2 (by decide) rfl rfl,
   groupby_absent_column_behavior.2 exPresent (by decide) rfl⟩

/-- Witness for the amended C4, at a concrete one-student dataset. -/
theorem transform_mutates_cleaned_witness :
    (clean_data { raw_data := some exPresent, cleaned_data := none }).1.raw_data
      = ({ raw_data := some exPresent, cleaned_data := none } : AnalyzerState).raw_data
    ∧ ∃ c t, (clean_data { raw_data := some exPresent, cleaned_data := none }).2 = some c
        ∧ (transform_data (clean_data { raw_data := some exPresent, cleaned_data := none }).1).1.cleaned_data
          = some t
        ∧ t ≠ c :=
  transform_mutates_cleaned _ exPresent rfl (by decide) (by decide) rfl

/-- C6: `letter_grade` is the threshold function of `overall_average` with
lower bounds inclusive: an average `≥ 90` gives `'A'`, `≥ 80` gives `'B'`,
`≥ 70` gives `'C'`, `≥ 60` gives `'D'`, and anything lower gives `'F'`; in
particular `90.0 → 'A'`, `89.9 → 'B'`, `80.0 → 'B'`, `69.9 → 'D'`,
`59.9 → 'F'`. -/
theorem letter_grade_thresholds :
    (∀ s : ℚ, (get_letter_grade s = "A" ↔ 90 ≤ s)
      ∧ (get_letter_grade s = "B" ↔ 80 ≤ s ∧ s < 90)
      ∧ (get_letter_grade s = "C" ↔ 70 ≤ s ∧ s < 80)
      ∧ (get_letter_grade s = "D" ↔ 60 ≤ s ∧ s < 70)
      ∧ (get_letter_grade s = "F" ↔ s < 60))
    ∧ get_letter_grade 90 = "A" ∧ get_letter_grade (899/10) = "B"
    ∧ get_letter_grade 80 = "B" ∧ get_letter_grade (699/10) = "D"
    ∧ get_letter_grade (599/10) = "F" := by
  refine ⟨fun s => ?_, by norm_num [get_letter_grade], by norm_num [get_letter_grade],
    by norm_num [get_letter_grade], by norm_num [get_letter_grade],
    by norm_num [get_letter_grade]⟩
  unfold get_letter_grade
  split_ifs with h1 h2 h3 h4 <;>
    refine ⟨?_, ?_, ?_, ?_, ?_⟩ <;> simp <;> intros <;>
      first
        | linarith
        | (constructor <;> linarith)

/-- C7: `performance` is the threshold function of `overall_average` with
lower bounds inclusive: an average `≥ 85` gives `'Excellent'`, `≥ 75` gives
`'Good'`, `≥ 65` gives `'Average'`, and anything lower gives
`'Needs Improvement'`; in particular `85.0 → 'Excellent'`, `84.9 → 'Good'`,
`75.0 → 'Good'`, `64.9 → 'Needs Improvement'`. -/
theorem performance_thresholds :
    (∀ s : ℚ, (get_performance_category s = "Excellent" ↔ 85 ≤ s)
      ∧ (get_performance_category s = "Good" ↔ 75 ≤ s ∧ s < 85)
      ∧ (get_performance_category s = "Average" ↔ 65 ≤ s ∧ s < 75)
      ∧ (get_performance_category s = "Needs Improvement" ↔ s < 65))
    ∧ get_performance_category 85 = "Excellent"
    ∧ get_performance_category (849/10) = "Good"
    ∧ get_performance_category 75 = "Good"
    ∧ get_performance_category (649/10) = "Needs Improvement" := by
  refine ⟨fun s => ?_, by norm_num [get_performance_category],
    by norm_num [get_performance_category], by norm_num [get_performance_category],
    by norm_num [get_performance_category]⟩
  unfold get_performance_category
  split_ifs with h1 h2 h3 <;>
    refine ⟨?_, ?_, ?_, ?_⟩ <;> simp <;> intros <;>
      first
        | linarith
        | (constructor <;> linarith)
